import Mathlib

/-!
Shallow embedding of the MyPlan task manager (src/script.js, src/storage.js):
the notification/engagement heuristic engine and the task store contract.
Timestamps are modelled as natural numbers (milliseconds), probabilities and
scores as rationals, and the four task priorities as an inductive enum.
All definitions are translated from the final revision of the source
(script.js lines 2064-3814, storage.js).
-/

namespace MyPlan

/-- Task priority enum: 'important' | 'daily' | 'secondary' | 'general'. -/
inductive Priority where
  | important
  | daily
  | secondary
  | general
deriving DecidableEq, Repr

/-- Time-of-day classification used by the NotificationManager. -/
inductive TimeOfDay where
  | morning
  | afternoon
  | evening
  | night
deriving DecidableEq, Repr

/-- Urgency levels of a top banner: 'normal' | 'medium' | 'high'. -/
inductive Urgency where
  | normal
  | medium
  | high
deriving DecidableEq, Repr

/-- A task object as created by MyPlanApp.addTask (script.js lines 3113-3120):
id, text, priority, completed flag, createdAt, updatedAt, and the
completedAt timestamp written by toggleTask (null while incomplete). -/
structure Task where
  id : String
  text : String
  priority : Priority
  completed : Bool
  createdAt : Nat
  updatedAt : Nat
  completedAt : Option Nat
deriving DecidableEq, Repr

/-- NotificationManager.getTimeOfDay (script.js lines 2508-2514):
morning is [6,12), afternoon [12,18), evening [18,22), night otherwise. -/
def getTimeOfDay (hour : Nat) : TimeOfDay :=
  if 6 ≤ hour ∧ hour < 12 then TimeOfDay.morning
  else if 12 ≤ hour ∧ hour < 18 then TimeOfDay.afternoon
  else if 18 ≤ hour ∧ hour < 22 then TimeOfDay.evening
  else TimeOfDay.night

/-- The timeGreeting lookup table used by showSmartNotification (lines
2448-2453) and convertMotivationToTopNotification (lines 2291-2296). -/
def timeGreeting : TimeOfDay → String
  | TimeOfDay.morning => "早上好"
  | TimeOfDay.afternoon => "下午好"
  | TimeOfDay.evening => "晚上好"
  | TimeOfDay.night => "夜深了"

/-- A top-banner directive: message text plus urgency. -/
structure Banner where
  message : String
  urgency : Urgency
deriving DecidableEq, Repr

/-- Banner-selection part of NotificationManager.showSmartNotification
(script.js lines 2421-2466), rule family A: night with pending tasks
beats pending important tasks, which beat the plain time greeting;
no banner when nothing is pending. -/
def showSmartBanner (tasks : List Task) (hour : Nat) : Option Banner :=
  let timeOfDay := getTimeOfDay hour
  let uncompletedTasks := tasks.filter fun t => !t.completed
  let importantTasks := uncompletedTasks.filter fun t => decide (t.priority = Priority.important)
  if timeOfDay = TimeOfDay.night ∧ 0 < uncompletedTasks.length then
    some { message := "夜深了，还有 " ++ toString uncompletedTasks.length ++ " 个任务未完成，早点休息吧"
           urgency := Urgency.high }
  else if 0 < importantTasks.length then
    some { message := "有 " ++ toString importantTasks.length ++ " 个重要任务等待处理"
           urgency := Urgency.medium }
  else if 0 < uncompletedTasks.length then
    some { message := timeGreeting timeOfDay ++ "！还有 " ++ toString uncompletedTasks.length ++ " 个任务等待完成"
           urgency := Urgency.normal }
  else none

/-- Banner chosen by NotificationManager.convertMotivationToTopNotification
(script.js lines 2270-2337) when an undismissed motivation message expires:
all-done celebration, else pending-important reminder, else time greeting.
Note this rule set has no night rule. -/
def convertMotivationBanner (tasks : List Task) (hour : Nat) : Banner :=
  let uncompletedTasks := tasks.filter fun t => !t.completed
  let importantTasks := uncompletedTasks.filter fun t => decide (t.priority = Priority.important)
  let timeOfDay := getTimeOfDay hour
  if uncompletedTasks.length = 0 then
    { message := "所有任务已完成！今天表现很棒 🎉", urgency := Urgency.normal }
  else if 0 < importantTasks.length then
    { message := "还有 " ++ toString importantTasks.length ++ " 个重要任务待处理"
      urgency := Urgency.medium }
  else
    { message := timeGreeting timeOfDay ++ "！还有 " ++ toString uncompletedTasks.length ++ " 个任务等待完成"
      urgency := Urgency.normal }

/-- The userBehaviorData record initialised in the NotificationManager
constructor (script.js lines 2079-2086). Scores and the running average
are rationals, timestamps are milliseconds. -/
structure UserBehaviorData where
  sessionStartTime : Nat
  tasksCompletedInSession : Nat
  motivationsShown : Nat
  lastTaskCompletionTime : Nat
  averageTaskCompletionTime : ℚ
  userEngagementScore : ℚ
deriving DecidableEq, Repr

/-- Initial userBehaviorData: session starts now, counters zero,
engagement score 0.5 (script.js lines 2080-2085). -/
def initialUserBehaviorData (now : Nat) : UserBehaviorData :=
  { sessionStartTime := now
    tasksCompletedInSession := 0
    motivationsShown := 0
    lastTaskCompletionTime := 0
    averageTaskCompletionTime := 0
    userEngagementScore := 0.5 }

/-- NotificationManager.updateUserBehaviorData (script.js lines 2674-2713).
The switch matches the camelCase action names taskCompleted, taskCreated
and userInactive; any other action string falls through unchanged.
The argument taskCreatedTime models the truthy data.taskCreatedTime field
(absent or zero is none). -/
def updateUserBehaviorData (action : String) (taskCreatedTime : Option Nat)
    (now : Nat) (ub : UserBehaviorData) : UserBehaviorData :=
  if action = "taskCompleted" then
    let ub := { ub with
      tasksCompletedInSession := ub.tasksCompletedInSession + 1
      lastTaskCompletionTime := now }
    let ub :=
      match taskCreatedTime with
      | some created =>
        let completionTime : ℚ := (now : ℚ) - (created : ℚ)
        if ub.averageTaskCompletionTime = 0 then
          { ub with averageTaskCompletionTime := completionTime }
        else
          { ub with averageTaskCompletionTime :=
              (ub.averageTaskCompletionTime + completionTime) / 2 }
      | none => ub
    { ub with userEngagementScore := min (ub.userEngagementScore + 0.1) 1.0 }
  else if action = "taskCreated" then
    { ub with userEngagementScore := min (ub.userEngagementScore + 0.05) 1.0 }
  else if action = "userInactive" then
    { ub with userEngagementScore := max (ub.userEngagementScore - 0.02) 0.1 }
  else ub

/-- One recorded behaviour event: action string, truthy taskCreatedTime
field of the data argument, and the wall-clock time of the call. -/
structure BehaviorEvent where
  action : String
  taskCreatedTime : Option Nat
  now : Nat

/-- Folding a finite sequence of updateUserBehaviorData calls over a
starting userBehaviorData record. -/
def runBehaviorEvents (events : List BehaviorEvent) (ub : UserBehaviorData) : UserBehaviorData :=
  events.foldl (fun acc e => updateUserBehaviorData e.action e.taskCreatedTime e.now acc) ub

/-- The motivation cooldown: 30 * 1000 milliseconds (script.js line 2073). -/
def motivationCooldown : Nat := 30 * 1000

/-- The minimum-recent-activity window for periodic motivation:
2 * 60 * 1000 milliseconds (script.js line 2077). -/
def minActiveTime : Nat := 2 * 60 * 1000

/-- Calendar-day equivalence class of a millisecond timestamp, modelling
the toDateString comparison used for the completed-today filter. -/
def toDateDay (t : Nat) : Nat := t / 86400000

/-- Tasks completed today: completed, with a non-null completedAt on the
same calendar day as now (script.js lines 2425-2428 and 2594-2597). -/
def completedTodayOf (tasks : List Task) (now : Nat) : List Task :=
  tasks.filter fun t =>
    t.completed && (match t.completedAt with
      | some c => decide (toDateDay c = toDateDay now)
      | none => false)

/-- Motivation probability computed inline by showSmartNotification
(script.js lines 2469-2484): base 0.6, overridden to 0.85 when all tasks
are done with some completed today, 0.75 when five or more completed
today, 0.45 when more than ten pending, 0.7 in the morning. -/
def smartMotivationProbability (uncompletedTasks completedToday : List Task)
    (hour : Nat) : ℚ :=
  let timeOfDay := getTimeOfDay hour
  if uncompletedTasks.length = 0 ∧ 0 < completedToday.length then 0.85
  else if 5 ≤ completedToday.length then 0.75
  else if 10 < uncompletedTasks.length then 0.45
  else if timeOfDay = TimeOfDay.morning then 0.7
  else 0.6

/-- NotificationManager.calculateSmartMotivationProbability (script.js
lines 2623-2669): base probability from task state, scaled by the
engagement multiplier, session duration, idle-since-last-completion,
motivation-rate anti-spam and time-of-day factors, then clamped to
the interval from 0.1 to 0.9. -/
def calculateSmartMotivationProbability (ub : UserBehaviorData)
    (uncompletedTasks completedToday : List Task) (now hour : Nat) : ℚ :=
  let baseProbability : ℚ := 0.4
  let baseProbability :=
    if uncompletedTasks.length = 0 ∧ 0 < completedToday.length then (0.8 : ℚ)
    else if 3 ≤ completedToday.length then 0.6
    else if 8 < uncompletedTasks.length then 0.3
    else baseProbability
  let engagementMultiplier : ℚ := 0.5 + ub.userEngagementScore * 0.5
  let baseProbability := baseProbability * engagementMultiplier
  let sessionDuration : ℚ := (now : ℚ) - (ub.sessionStartTime : ℚ)
  let sessionHours : ℚ := sessionDuration / (1000 * 60 * 60)
  let baseProbability :=
    if sessionHours > 2 then baseProbability * 1.2
    else if sessionHours < 0.5 then baseProbability * 0.8
    else baseProbability
  let timeSinceLastCompletion : ℚ := (now : ℚ) - (ub.lastTaskCompletionTime : ℚ)
  let baseProbability :=
    if timeSinceLastCompletion > 30 * 60 * 1000 then baseProbability * 1.3
    else baseProbability
  let motivationRate : ℚ := (ub.motivationsShown : ℚ) / max sessionHours 0.1
  let baseProbability :=
    if motivationRate > 3 then baseProbability * 0.7
    else baseProbability
  let baseProbability :=
    if (9 ≤ hour ∧ hour ≤ 11) ∨ (14 ≤ hour ∧ hour ≤ 16) then baseProbability * 1.1
    else if 22 ≤ hour ∨ hour ≤ 6 then baseProbability * 0.8
    else baseProbability
  min (max baseProbability 0.1) 0.9

/-- The timeMessages table of getMotivationMessages (script.js lines
2722-2771): ten encouragement strings per time of day. -/
def timeMessages : TimeOfDay → List String
  | TimeOfDay.morning =>
    [ "🌅 早起的鸟儿有虫吃，先做5分钟试试？"
    , "☀️ 新的一天开始了，从最简单的任务开始吧！"
    , "✨ 晨光正好，正是高效工作的时候"
    , "🌱 清晨的你充满活力，让我们开始吧！"
    , "🎯 早晨的专注力最棒，抓住这个黄金时间！"
    , "🌈 新的一天，新的可能，你准备好了吗？"
    , "☕ 来杯咖啡，开启高效的一天！"
    , "🎪 早晨的魔法时光，让奇迹发生吧！"
    , "🌸 春天的早晨最美好，就像现在的你！"
    , "🎵 听，成功在向你招手！" ]
  | TimeOfDay.afternoon =>
    [ "🌞 下午时光，适合处理一些重要任务"
    , "💪 午后精神好，不如完成一个小目标？"
    , "⏰ 时间过半，看看还有什么可以快速完成的"
    , "🚀 下午的你依然充满干劲！"
    , "🎨 午后阳光正好，创造力爆棚的时候到了！"
    , "🍃 午后微风轻拂，正是思考的好时光"
    , "🎭 下午场的表演开始了，你是主角！"
    , "🌻 向日葵般的你，总是朝着目标前进"
    , "🎪 下午的精彩正在上演，别错过！"
    , "🌊 乘风破浪的下午，勇敢前行！" ]
  | TimeOfDay.evening =>
    [ "🌆 晚上时光，整理一下今天的收获吧"
    , "🌙 夜幕降临，完成最后几个任务？"
    , "⭐ 今晚还有时间，不如再努力一下"
    , "🕯️ 夜晚的宁静最适合专心工作"
    , "🌟 晚间时光，为今天画个完美句号！"
    , "🎭 夜晚的舞台属于努力的你"
    , "🌙 月亮见证着你的每一份努力"
    , "🎨 夜色如画，你就是画中最亮的那颗星"
    , "🍷 为今天的努力干杯！"
    , "🎪 夜晚的马戏团，精彩还在继续！" ]
  | TimeOfDay.night =>
    [ "🌙 夜深了，明天的任务今天能完成一点是一点"
    , "🦉 深夜时分，适合做一些安静的任务"
    , "💫 夜猫子模式，专注力MAX！"
    , "🌌 深夜的你就像夜空中最亮的星"
    , "🔥 夜深人静，正是高效工作的好时机！"
    , "🌠 流星划过，为你的努力点赞"
    , "🎭 深夜的独角戏，你演得很棒！"
    , "🌙 月光如水，照亮你前进的路"
    , "⭐ 星星都在为你加油呢！"
    , "🎪 深夜的魔法时刻，创造奇迹吧！" ]

/-- The inspirational-quotes pool of getMotivationMessages (script.js
lines 2866-2877), appended with 10 percent probability. -/
def inspirationalQuotes : List String :=
  [ "💫 \"成功不是终点，失败不是末日，继续前进的勇气才最可贵\""
  , "🌟 \"每一个不曾起舞的日子，都是对生命的辜负\""
  , "🚀 \"你的潜力就像宇宙一样无限\""
  , "🎨 \"生活是一张白纸，你可以在上面画出任何想要的图案\""
  , "⚡ \"行动是治愈恐惧的良药\""
  , "🌈 \"风雨过后必有彩虹，坚持就是胜利\""
  , "🎯 \"专注于过程，结果自然会来\""
  , "💎 \"压力是煤炭变成钻石的必经之路\""
  , "🌱 \"每一次努力都是在为未来的自己投资\""
  , "🎪 \"人生就是一场精彩的表演，你是唯一的主角\"" ]

/-- NotificationManager.getMotivationMessages (script.js lines 2718-2885):
time-of-day pool, then the task-state block, then completion-rate and
hour extras, then the optional quote pool. The quoteRoll flag models the
10 percent Math.random draw; completionRate division by zero yields 0 in
the rationals, matching the NaN-to-0 coercion of the source. -/
def getMotivationMessages (timeOfDay : TimeOfDay)
    (uncompletedCount completedCount : Nat) (hour : Nat) (quoteRoll : Bool) :
    List String :=
  let messages := timeMessages timeOfDay
  let messages := messages ++
    (if uncompletedCount = 0 then
      [ "🎉 太棒了！所有任务都完成了，给自己一个奖励吧！"
      , "✨ 完美的一天，你真的很棒！"
      , "🏆 任务清单空空如也，享受这份成就感吧！"
      , "💎 哇！你把所有事情都搞定了，简直是超人！"
      , "🌈 干净的任务列表就像你整理好的生活一样美好！"
      , "👑 今天的你就是自己的国王/女王！"
      , "🎪 完美收官！你就是今天的MVP！"
      , "🌟 全部完成！你的效率让人惊叹！"
      , "🎭 精彩的表演结束了，观众都在为你鼓掌！"
      , "🏅 冠军就是你！今天的胜利属于你！"
      , "🎨 你把今天画成了最美的画作！"
      , "🚀 任务火箭发射成功，目标达成！" ]
    else if uncompletedCount ≤ 3 then
      [ "🎯 只剩几个任务了，冲刺一下就完成了！"
      , "🏃‍♀️ 胜利在望，坚持就是胜利！"
      , "💪 最后几步了，你可以的！"
      , "🌟 终点线就在眼前，加油冲刺！"
      , "🚀 最后的关卡，你一定能突破！"
      , "🎪 压轴大戏即将上演，你准备好了吗？"
      , "🏆 胜利的号角已经响起！"
      , "⚡ 最后的闪电战，一鼓作气！"
      , "🎭 大结局就在眼前，精彩继续！"
      , "🌈 彩虹的尽头就是宝藏，加油！" ]
    else if 0 < completedCount then
      [ "🏅 已经完成了" ++ toString completedCount ++ "个任务，继续保持！"
      , "📈 进展不错，再接再厉！"
      , "⭐ 每完成一个任务都是进步，加油！"
      , "🎊 看看你的成就，每一个都闪闪发光！"
      , "💫 你的执行力让星星都为你点赞！"
      , "🎪 精彩的表演正在进行中！"
      , "🌟 你就像夜空中最亮的星！"
      , "🚀 火箭已经点火，继续飞向目标！"
      , "🎨 你正在创作人生的杰作！"
      , "🏆 每一步都在向冠军靠近！"
      , "🎭 " ++ toString completedCount ++ "个精彩片段已完成，故事还在继续！"
      , "💎 每个完成的任务都是珍贵的宝石！" ]
    else
      [ "🌱 千里之行始于足下，先做5分钟试试？"
      , "🎯 不要被任务数量吓到，一个一个来！"
      , "🚀 开始就是成功的一半，动起来吧！"
      , "🧩 把大任务分解成小步骤，会更容易完成"
      , "💎 专注当下，先完成一个小任务"
      , "🌟 你比想象中更强大，相信自己！"
      , "🎨 创造属于你的精彩，一步一个脚印！"
      , "🍀 幸运总是眷顾努力的人，比如你！"
      , "🎪 人生的马戏团开始了，你是主角！"
      , "🌈 每一个开始都孕育着无限可能！"
      , "⚡ 闪电般的行动力，就从现在开始！"
      , "🎭 人生如戏，现在是你的主场时间！"
      , "🚀 倒计时开始，准备发射你的潜能！"
      , "🌟 星星之火可以燎原，从小事做起！"
      , "🎨 空白的画布等待你来创作奇迹！" ])
  let completionRate : ℚ :=
    (completedCount : ℚ) / ((completedCount : ℚ) + (uncompletedCount : ℚ))
  let messages := messages ++
    (if completionRate > 0.8 then
      [ "🔥 完成率超过80%！你就是效率之王！"
      , "⚡ 这个完成率简直逆天了！"
      , "🏆 如此高的完成率，你值得所有掌声！" ]
    else if completionRate > 0.5 then
      [ "📊 完成率过半，势头很好！"
      , "🎯 你正在稳步向目标前进！"
      , "💪 这个节奏很棒，继续保持！" ]
    else [])
  let messages := messages ++
    (if 9 ≤ hour ∧ hour ≤ 11 then ["☕ 上午黄金时间，大脑最清醒的时候！"]
    else if 14 ≤ hour ∧ hour ≤ 16 then ["🌞 下午效率时段，抓住这个机会！"]
    else if 20 ≤ hour ∧ hour ≤ 22 then ["🌙 夜晚思维活跃期，灵感迸发的时刻！"]
    else [])
  messages ++ (if quoteRoll then inspirationalQuotes else [])

/-- Motivation-emission part of NotificationManager.showSmartNotification
(script.js lines 2468-2502): the message is emitted when the uniform
sample rand is at most the inline probability, the time since
lastMotivationTime has reached the cooldown, and the message pool is
non-empty; emitting sets lastMotivationTime to now. Returns the emitted
flag and the new lastMotivationTime. -/
def showSmartNotificationMotivation (tasks : List Task) (hour : Nat)
    (lastMotivationTime now : Nat) (rand : ℚ) (quoteRoll : Bool) : Bool × Nat :=
  let timeOfDay := getTimeOfDay hour
  let uncompletedTasks := tasks.filter fun t => !t.completed
  let completedToday := completedTodayOf tasks now
  let motivationProbability := smartMotivationProbability uncompletedTasks completedToday hour
  let timeSinceLastMotivation := now - lastMotivationTime
  if rand ≤ motivationProbability ∧ motivationCooldown ≤ timeSinceLastMotivation then
    let motivationMessages :=
      getMotivationMessages timeOfDay uncompletedTasks.length completedToday.length hour quoteRoll
    if 0 < motivationMessages.length then (true, now) else (false, lastMotivationTime)
  else (false, lastMotivationTime)

/-- NotificationManager.checkAndShowPeriodicMotivation (script.js lines
2579-2618): bail out when the page is hidden, the user has not been
active within minActiveTime, or the cooldown has not elapsed; otherwise
emit when the sample is at most the smart probability and the pool is
non-empty, setting lastMotivationTime to now and incrementing
motivationsShown. Returns the emitted flag, the new lastMotivationTime
and the new userBehaviorData. -/
def checkAndShowPeriodicMotivation (tasks : List Task) (hour : Nat)
    (isPageVisible : Bool) (userActiveTime : Nat) (ub : UserBehaviorData)
    (lastMotivationTime now : Nat) (rand : ℚ) (quoteRoll : Bool) :
    Bool × Nat × UserBehaviorData :=
  if !isPageVisible then (false, lastMotivationTime, ub)
  else if minActiveTime < now - userActiveTime then (false, lastMotivationTime, ub)
  else if now - lastMotivationTime < motivationCooldown then (false, lastMotivationTime, ub)
  else
    let uncompletedTasks := tasks.filter fun t => !t.completed
    let completedToday := completedTodayOf tasks now
    let timeOfDay := getTimeOfDay hour
    let probability := calculateSmartMotivationProbability ub uncompletedTasks completedToday now hour
    if rand ≤ probability then
      let motivationMessages :=
        getMotivationMessages timeOfDay uncompletedTasks.length completedToday.length hour quoteRoll
      if 0 < motivationMessages.length then
        (true, now, { ub with motivationsShown := ub.motivationsShown + 1 })
      else (false, lastMotivationTime, ub)
    else (false, lastMotivationTime, ub)

/-- Which of the two encouragement entry points an evaluation uses. -/
inductive EvalKind where
  | smart
  | periodic
deriving DecidableEq, Repr

/-- All inputs of one encouragement evaluation other than the shared
lastMotivationTime state and the call time: entry point, task snapshot,
hour, page visibility, last-activity time, behaviour data and the values
drawn by the random sampler. -/
structure EvalInputs where
  kind : EvalKind
  tasks : List Task
  hour : Nat
  isPageVisible : Bool
  userActiveTime : Nat
  ub : UserBehaviorData
  rand : ℚ
  quoteRoll : Bool

/-- Run one encouragement evaluation against the shared
lastMotivationTime state, returning whether a motivation message was
emitted and the new lastMotivationTime. -/
def runEvaluation (p : EvalInputs) (lastMotivationTime now : Nat) : Bool × Nat :=
  match p.kind with
  | EvalKind.smart =>
    showSmartNotificationMotivation p.tasks p.hour lastMotivationTime now p.rand p.quoteRoll
  | EvalKind.periodic =>
    let r :=
      checkAndShowPeriodicMotivation p.tasks p.hour p.isPageVisible p.userActiveTime p.ub
        lastMotivationTime now p.rand p.quoteRoll
    (r.1, r.2.1)

/-- The stored tasks record written by TaskStorage.saveTasks
(storage.js lines 62-77). -/
structure StoredTaskData where
  tasks : List Task
  lastModified : Nat
  version : String
deriving DecidableEq, Repr

/-- Settings are an opaque key-value record for the store. -/
structure Settings where
  entries : List (String × String)
deriving DecidableEq, Repr

/-- The browser localStorage as seen by TaskStorage: the two records it
owns plus a writability flag (false models setItem throwing, for example
when the quota is exceeded). -/
structure LocalStore where
  taskData : Option StoredTaskData
  settings : Option Settings
  writable : Bool
deriving DecidableEq, Repr

/-- TaskStorage.saveTasks (storage.js lines 62-77): wraps the list with a
lastModified stamp and version "1.0" and writes it, returning true;
when the write throws the catch returns false and nothing is stored. -/
def saveTasks (tasks : List Task) (now : Nat) (store : LocalStore) : Bool × LocalStore :=
  if store.writable then
    (true, { store with taskData := some { tasks := tasks, lastModified := now, version := "1.0" } })
  else (false, store)

/-- TaskStorage.saveSettings (storage.js lines 197-205). -/
def saveSettings (s : Settings) (store : LocalStore) : Bool × LocalStore :=
  if store.writable then (true, { store with settings := some s })
  else (false, store)

/-- A parsed import payload. The tasks field is none when it is missing,
falsy, or not an array (the !importData.tasks and Array.isArray checks of
storage.js line 249); settings is none when absent or falsy. -/
structure ImportPayload where
  tasks : Option (List Task)
  settings : Option Settings
deriving DecidableEq, Repr

/-- TaskStorage.importTasks (storage.js lines 244-267). The argument is
none when JSON.parse throws. An invalid tasks field throws, is caught,
and returns false with the store untouched. A valid payload saves the
tasks, imports the settings only when both are present and the task save
succeeded, and returns true regardless of the save result. -/
def importTasks (jsonData : Option ImportPayload) (now : Nat) (store : LocalStore) :
    Bool × LocalStore :=
  match jsonData with
  | none => (false, store)
  | some importData =>
    match importData.tasks with
    | none => (false, store)
    | some tasks =>
      let (success, store) := saveTasks tasks now store
      let store :=
        match importData.settings with
        | some s => if success then (saveSettings s store).2 else store
        | none => store
      (true, store)

/-- The in-place mutation applied by MyPlanApp.toggleTask (script.js lines
3148-3158) to the task found by id: flip completed, stamp or clear
completedAt accordingly, and refresh updatedAt. -/
def toggledTask (t : Task) (now : Nat) : Task :=
  let completed := !t.completed
  { t with
    completed := completed
    completedAt := if completed then some now else none
    updatedAt := now }

/-- MyPlanApp.toggleTask (script.js lines 3146-3170): find the first task
with the given id and toggle it; unknown ids leave the list unchanged. -/
def toggleTask : List Task → String → Nat → List Task
  | [], _, _ => []
  | t :: ts, taskId, now =>
    if t.id = taskId then toggledTask t now :: ts
    else t :: toggleTask ts taskId now

/-- The find used by toggleTask: first task with the given id. -/
def findTask (tasks : List Task) (taskId : String) : Option Task :=
  tasks.find? fun t => decide (t.id = taskId)

/-- The in-bucket comparator of MyPlanApp.getTasksByPriority (script.js
lines 3313-3320) as a total boolean order: a sorts no later than b when a
is incomplete and b completed, or, with equal completed flags, when the
createdAt of a is at least that of b (newest first). -/
def taskLE (a b : Task) : Bool :=
  if a.completed ≠ b.completed then !a.completed
  else decide (b.createdAt ≤ a.createdAt)

/-- MyPlanApp.getTasksByPriority (script.js lines 3305-3324), one bucket:
filter the tasks of the given priority and sort them with the in-bucket
comparator (incomplete first, then createdAt descending). -/
def getTasksByPriority (tasks : List Task) (priority : Priority) : List Task :=
  (tasks.filter fun t => decide (t.priority = priority)).mergeSort taskLE

/-- Sample inputs for one encouragement evaluation: the smart entry
point on an empty snapshot at hour 10, visible page, sampler drawing 0. -/
def demoEvalInputs : EvalInputs :=
  { kind := EvalKind.smart, tasks := [], hour := 10, isPageVisible := true
    userActiveTime := 0, ub := initialUserBehaviorData 0, rand := 0, quoteRoll := false }

/-- A sample pending task of general priority. -/
def demoGeneralTask : Task :=
  { id := "t1", text := "task", priority := Priority.general, completed := false
    createdAt := 0, updatedAt := 0, completedAt := none }

/-- A sample pending task of important priority. -/
def demoImportantTask : Task :=
  { id := "t2", text := "urgent", priority := Priority.important, completed := false
    createdAt := 0, updatedAt := 0, completedAt := none }

/-- Claim C1: the events the application actually dispatches are the
snake_case strings task_created (from addTask, script.js line 3126),
task_completed (from toggleTask, line 3154) and user_inactive (from the
inactivity poller, line 2548), but the switch in updateUserBehaviorData
matches only the camelCase names taskCompleted, taskCreated and
userInactive, so every dispatched event falls through the switch and
leaves the whole userBehaviorData record unchanged: the engagement
score is never raised by 0.1 or 0.05, never lowered by 0.02, the session
completion count is never incremented and the latency average is never
updated, contradicting the claimed transitions. -/
theorem c1_dispatched_events_ignored (taskCreatedTime : Option Nat) (now : Nat)
    (ub : UserBehaviorData) :
    updateUserBehaviorData "task_completed" taskCreatedTime now ub = ub ∧
    updateUserBehaviorData "task_created" taskCreatedTime now ub = ub ∧
    updateUserBehaviorData "user_inactive" taskCreatedTime now ub = ub := by
  refine ⟨?_, ?_, ?_⟩ <;>
    · unfold updateUserBehaviorData
      rw [if_neg (by decide), if_neg (by decide), if_neg (by decide)]

/-- Claim C4: for every combination of inputs, both the smart periodic
probability computed by calculateSmartMotivationProbability and the
inline probability used by showSmartNotification lie in the closed
interval from 0.1 to 0.9 before the random sample is drawn. -/
theorem c4_motivation_probability_clamped (ub : UserBehaviorData)
    (uncompletedTasks completedToday : List Task) (now hour : Nat) :
    (0.1 ≤ calculateSmartMotivationProbability ub uncompletedTasks completedToday now hour ∧
      calculateSmartMotivationProbability ub uncompletedTasks completedToday now hour ≤ 0.9) ∧
    (0.1 ≤ smartMotivationProbability uncompletedTasks completedToday hour ∧
      smartMotivationProbability uncompletedTasks completedToday hour ≤ 0.9) := by
  constructor
  · constructor
    · exact le_min (le_max_right _ _) (by norm_num)
    · exact min_le_right _ _
  · simp only [smartMotivationProbability]
    split_ifs <;> norm_num

/-- Claim C6: an import payload whose tasks field is missing or not a
list makes importTasks return false and leaves the persisted store
exactly as it was, with no partial write of tasks or settings. -/
theorem c6_import_invalid_tasks_atomic (payload : ImportPayload) (now : Nat)
    (store : LocalStore) (h : payload.tasks = none) :
    importTasks (some payload) now store = (false, store) := by
  obtain ⟨tasksField, settingsField⟩ := payload
  simp only at h
  subst h
  rfl

/-- Witness for claim C6 at a concrete payload and store. -/
theorem c6_import_invalid_tasks_atomic_witness :
    (ImportPayload.mk none none).tasks = none ∧
    importTasks (some (ImportPayload.mk none none)) 5
        (LocalStore.mk none none true) =
      (false, LocalStore.mk none none true) :=
  ⟨rfl, c6_import_invalid_tasks_atomic (ImportPayload.mk none none) 5
    (LocalStore.mk none none true) rfl⟩

/-- Claim C9: a payload that parses and has a list tasks field makes
importTasks return true even when the underlying saveTasks write fails
and returns false; in that failure case the settings write is skipped as
well, and the store is left unchanged while success is still reported. -/
theorem c9_import_success_despite_save_failure (payload : ImportPayload)
    (tasks : List Task) (now : Nat) (store : LocalStore)
    (htasks : payload.tasks = some tasks) (hw : store.writable = false) :
    saveTasks tasks now store = (false, store) ∧
    importTasks (some payload) now store = (true, store) := by
  obtain ⟨tasksField, settingsField⟩ := payload
  simp only at htasks
  subst htasks
  obtain ⟨taskData, settings, writable⟩ := store
  simp only at hw
  subst hw
  exact ⟨rfl, by cases settingsField <;> rfl⟩

/-- Witness for claim C9 at a concrete payload and a read-only store. -/
theorem c9_import_success_despite_save_failure_witness :
    (ImportPayload.mk (some []) (some (Settings.mk []))).tasks = some [] ∧
    (LocalStore.mk none none false).writable = false ∧
    importTasks (some (ImportPayload.mk (some []) (some (Settings.mk [])))) 7
        (LocalStore.mk none none false) =
      (true, LocalStore.mk none none false) :=
  ⟨rfl, rfl,
    (c9_import_success_despite_save_failure
      (ImportPayload.mk (some []) (some (Settings.mk []))) [] 7
      (LocalStore.mk none none false) rfl rfl).2⟩

/-- Claim C2, counterexample: at hour 23 (night) with a single pending
general-priority task, rule family A picks the high-urgency night banner,
but the auto-converted banner is the normal-urgency time greeting, so the
conversion does not re-run rule family A and the converted banner is not
the rule-1 high-urgency night message. -/
theorem c2_convert_not_rule_family_a_counterexample :
    showSmartBanner [demoGeneralTask] 23 =
      some { message := "夜深了，还有 1 个任务未完成，早点休息吧", urgency := Urgency.high } ∧
    convertMotivationBanner [demoGeneralTask] 23 =
      { message := "夜深了！还有 1 个任务等待完成", urgency := Urgency.normal } ∧
    convertMotivationBanner [demoGeneralTask] 23 ≠
      { message := "夜深了，还有 1 个任务未完成，早点休息吧", urgency := Urgency.high } := by
  refine ⟨rfl, rfl, by decide⟩

/-- Claim C2 as amended: the converted banner is chosen by the
conversion-specific rule set of convertMotivationToTopNotification
(all-complete celebration, else pending-important reminder, else
normal-urgency time greeting), which has no night rule; in particular,
for every snapshot with at least one pending task and no pending
important task evaluated at an hour classified as night, the converted
banner is the normal-urgency night time greeting, not the rule-1
high-urgency night message. -/
theorem c2_convert_banner_amended (tasks : List Task) (hour : Nat)
    (hnight : getTimeOfDay hour = TimeOfDay.night)
    (hpending : 0 < (tasks.filter fun t => !t.completed).length)
    (himp : ((tasks.filter fun t => !t.completed).filter fun t =>
        decide (t.priority = Priority.important)).length = 0) :
    convertMotivationBanner tasks hour =
      { message := (timeGreeting TimeOfDay.night ++ "！还有 " ++
          toString (tasks.filter fun t => !t.completed).length ++ " 个任务等待完成"),
        urgency := Urgency.normal } := by
  simp only [convertMotivationBanner, hnight]
  rw [if_neg (by omega), if_neg (by omega)]

/-- Witness for the amended claim C2 at hour 23 with one pending
general-priority task. -/
theorem c2_convert_banner_amended_witness :
    getTimeOfDay 23 = TimeOfDay.night ∧
    0 < ([demoGeneralTask].filter fun t => !t.completed).length ∧
    (([demoGeneralTask].filter fun t => !t.completed).filter fun t =>
        decide (t.priority = Priority.important)).length = 0 ∧
    convertMotivationBanner [demoGeneralTask] 23 =
      { message := (timeGreeting TimeOfDay.night ++ "！还有 " ++
          toString ([demoGeneralTask].filter fun t => !t.completed).length ++ " 个任务等待完成"),
        urgency := Urgency.normal } :=
  ⟨rfl, by decide, by decide,
    c2_convert_banner_amended [demoGeneralTask] 23 rfl (by decide) (by decide)⟩

/-- Claim C3: whenever the snapshot contains a pending important task and
the hour is classified as night, showSmartNotification emits the rule-1
high-urgency night banner (with the pending count), not the rule-2
medium-urgency important-tasks banner: rule 1 is tested first, so night
takes precedence when both conditions hold. -/
theorem c3_night_rule_precedes_important_rule (tasks : List Task) (hour : Nat)
    (hnight : getTimeOfDay hour = TimeOfDay.night)
    (himp : ∃ t ∈ tasks, t.completed = false ∧ t.priority = Priority.important) :
    showSmartBanner tasks hour =
      some { message := ("夜深了，还有 " ++
               toString (tasks.filter fun t => !t.completed).length ++ " 个任务未完成，早点休息吧"),
             urgency := Urgency.high } := by
  obtain ⟨t, htmem, hc, _⟩ := himp
  have hmem : t ∈ tasks.filter fun t => !t.completed :=
    List.mem_filter.mpr ⟨htmem, by simp [hc]⟩
  have hlen : 0 < (tasks.filter fun t => !t.completed).length :=
    List.length_pos.mpr (List.ne_nil_of_mem hmem)
  simp only [showSmartBanner]
  rw [if_pos ⟨hnight, hlen⟩]

/-- Witness for claim C3 at hour 23 with one pending important task. -/
theorem c3_night_rule_precedes_important_rule_witness :
    getTimeOfDay 23 = TimeOfDay.night ∧
    showSmartBanner [demoImportantTask] 23 =
      some { message := ("夜深了，还有 " ++
               toString (([demoImportantTask].filter fun t => !t.completed)).length ++ " 个任务未完成，早点休息吧"),
             urgency := Urgency.high } :=
  ⟨rfl, c3_night_rule_precedes_important_rule [demoImportantTask] 23 rfl
    ⟨demoImportantTask, by simp, rfl, rfl⟩⟩

/-- Helper: an evaluation that emits a motivation message must have seen
the cooldown elapsed relative to the lastMotivationTime it was given. -/
theorem runEvaluation_emit_cooldown {p : EvalInputs} {last now : Nat}
    (h : (runEvaluation p last now).1 = true) :
    motivationCooldown ≤ now - last := by
  cases hk : p.kind <;>
    simp only [runEvaluation, hk, showSmartNotificationMotivation,
      checkAndShowPeriodicMotivation] at h <;>
    split_ifs at h with h1 h2 <;>
    first
      | exact h1.2
      | omega

/-- Helper: an evaluation that emits sets lastMotivationTime to now. -/
theorem runEvaluation_emit_last {p : EvalInputs} {last now : Nat}
    (h : (runEvaluation p last now).1 = true) :
    (runEvaluation p last now).2 = now := by
  cases hk : p.kind <;>
    simp only [runEvaluation, hk, showSmartNotificationMotivation,
      checkAndShowPeriodicMotivation] at h ⊢ <;>
    split_ifs at h ⊢ <;> rfl

/-- Claim C5: two consecutive encouragement evaluations (each either the
showSmartNotification path or the checkAndShowPeriodicMotivation path)
whose call times differ by less than the 30-second motivation cooldown
never both emit a motivation message, regardless of the sampler values:
emitting updates lastMotivationTime and both paths require the cooldown
to have elapsed since it. -/
theorem c5_cooldown_single_emission (p1 p2 : EvalInputs) (last t1 t2 : Nat)
    (_horder : t1 ≤ t2) (hwin : t2 - t1 < motivationCooldown) :
    ¬((runEvaluation p1 last t1).1 = true ∧
      (runEvaluation p2 (runEvaluation p1 last t1).2 t2).1 = true) := by
  rintro ⟨h1, h2⟩
  rw [runEvaluation_emit_last h1] at h2
  have hc : motivationCooldown ≤ t2 - t1 := runEvaluation_emit_cooldown h2
  omega

/-- Witness for claim C5: two smart evaluations 500 milliseconds apart. -/
theorem c5_cooldown_single_emission_witness :
    (1000 : Nat) ≤ 1500 ∧ 1500 - 1000 < motivationCooldown ∧
    ¬((runEvaluation demoEvalInputs 0 1000).1 = true ∧
      (runEvaluation demoEvalInputs (runEvaluation demoEvalInputs 0 1000).2 1500).1 = true) :=
  ⟨by norm_num, by decide,
    c5_cooldown_single_emission demoEvalInputs demoEvalInputs 0 1000 1500
      (by norm_num) (by decide)⟩

/-- Helper: the in-bucket comparator is transitive. -/
theorem taskLE_trans (a b c : Task) (hab : taskLE a b = true) (hbc : taskLE b c = true) :
    taskLE a c = true := by
  cases ha : a.completed <;> cases hb : b.completed <;> cases hc : c.completed <;>
    simp_all [taskLE] <;> omega

/-- Helper: the in-bucket comparator is total. -/
theorem taskLE_total (a b : Task) : (taskLE a b || taskLE b a) = true := by
  cases ha : a.completed <;> cases hb : b.completed <;>
    simp_all [taskLE] <;> omega

/-- Claim C7: each priority bucket of getTasksByPriority holds exactly
the tasks of that priority (so with the four-valued priority enum every
task lands in exactly one bucket), and within a bucket no completed task
precedes an incomplete one, while tasks with equal completed flags are
ordered by createdAt descending (newest first). -/
theorem c7_grouped_by_priority_partition_and_order (tasks : List Task) (p : Priority) :
    (∀ t : Task, t ∈ getTasksByPriority tasks p ↔ t ∈ tasks ∧ t.priority = p) ∧
    (getTasksByPriority tasks p).Pairwise (fun a b =>
      (a.completed = true → b.completed = true) ∧
      (a.completed = b.completed → b.createdAt ≤ a.createdAt)) := by
  constructor
  · intro t
    unfold getTasksByPriority
    rw [List.mem_mergeSort, List.mem_filter]
    simp
  · have hs := List.sorted_mergeSort taskLE_trans taskLE_total
      (tasks.filter fun t => decide (t.priority = p))
    refine List.Pairwise.imp ?_ hs
    intro a b hab
    cases ha : a.completed <;> cases hb : b.completed <;> simp_all [taskLE]

/-- Helper: toggling rewrites the first task found under the same id. -/
theorem findTask_toggleTask (tasks : List Task) (taskId : String) (now : Nat) (t : Task)
    (h : findTask tasks taskId = some t) :
    findTask (toggleTask tasks taskId now) taskId = some (toggledTask t now) := by
  induction tasks with
  | nil => simp [findTask] at h
  | cons a ts ih =>
    by_cases ha : a.id = taskId
    · unfold findTask at h
      rw [List.find?_cons_of_pos _ (by simp [ha])] at h
      injection h with h
      subst h
      unfold toggleTask
      rw [if_pos ha]
      unfold findTask
      rw [List.find?_cons_of_pos _ (by simp [toggledTask, ha])]
    · unfold findTask at h
      rw [List.find?_cons_of_neg _ (by simp [ha])] at h
      unfold toggleTask
      rw [if_neg ha]
      unfold findTask
      rw [List.find?_cons_of_neg _ (by simp [ha])]
      exact ih h

/-- Claim C8: toggling a present incomplete task at time t1 and again at
a later time t2 restores completed to false and completedAt to null,
and updatedAt strictly increases with each of the two toggles (from its
original value to t1, then to t2). -/
theorem c8_toggle_twice_roundtrip (tasks : List Task) (taskId : String) (t : Task)
    (t1 t2 : Nat) (hfind : findTask tasks taskId = some t)
    (hc : t.completed = false) (h1 : t.updatedAt < t1) (h2 : t1 < t2) :
    findTask (toggleTask tasks taskId t1) taskId = some (toggledTask t t1) ∧
    findTask (toggleTask (toggleTask tasks taskId t1) taskId t2) taskId =
      some (toggledTask (toggledTask t t1) t2) ∧
    (toggledTask (toggledTask t t1) t2).completed = false ∧
    (toggledTask (toggledTask t t1) t2).completedAt = none ∧
    t.updatedAt < (toggledTask t t1).updatedAt ∧
    (toggledTask t t1).updatedAt < (toggledTask (toggledTask t t1) t2).updatedAt := by
  have hf1 := findTask_toggleTask tasks taskId t1 t hfind
  have hf2 := findTask_toggleTask _ taskId t2 _ hf1
  refine ⟨hf1, hf2, ?_, ?_, ?_, ?_⟩ <;> simp [toggledTask, hc]
  · exact h1
  · exact h2

/-- Witness for claim C8: a singleton list holding one incomplete task
toggled at times 5 and 9. -/
theorem c8_toggle_twice_roundtrip_witness :
    findTask [demoGeneralTask] "t1" = some demoGeneralTask ∧
    demoGeneralTask.completed = false ∧
    demoGeneralTask.updatedAt < 5 ∧ (5 : Nat) < 9 ∧
    (findTask (toggleTask [demoGeneralTask] "t1" 5) "t1" = some (toggledTask demoGeneralTask 5) ∧
      findTask (toggleTask (toggleTask [demoGeneralTask] "t1" 5) "t1" 9) "t1" =
        some (toggledTask (toggledTask demoGeneralTask 5) 9) ∧
      (toggledTask (toggledTask demoGeneralTask 5) 9).completed = false ∧
      (toggledTask (toggledTask demoGeneralTask 5) 9).completedAt = none ∧
      demoGeneralTask.updatedAt < (toggledTask demoGeneralTask 5).updatedAt ∧
      (toggledTask demoGeneralTask 5).updatedAt <
        (toggledTask (toggledTask demoGeneralTask 5) 9).updatedAt) :=
  ⟨rfl, rfl, by decide, by decide,
    c8_toggle_twice_roundtrip [demoGeneralTask] "t1" demoGeneralTask 5 9 rfl rfl
      (by decide) (by decide)⟩

/-- Helper: one updateUserBehaviorData call keeps the engagement score
inside the closed interval from 0.1 to 1. -/
theorem updateUserBehaviorData_score_bounds (action : String) (tct : Option Nat)
    (now : Nat) (ub : UserBehaviorData)
    (hlo : 0.1 ≤ ub.userEngagementScore) (hhi : ub.userEngagementScore ≤ 1) :
    0.1 ≤ (updateUserBehaviorData action tct now ub).userEngagementScore ∧
    (updateUserBehaviorData action tct now ub).userEngagementScore ≤ 1 := by
  unfold updateUserBehaviorData
  split_ifs with hA hB hC
  · cases tct with
    | none =>
      dsimp only
      exact ⟨le_min (by linarith) (by norm_num), le_trans (min_le_right _ _) (by norm_num)⟩
    | some created =>
      dsimp only
      split_ifs with havg <;>
        exact ⟨le_min (by linarith) (by norm_num), le_trans (min_le_right _ _) (by norm_num)⟩
  · exact ⟨le_min (by linarith) (by norm_num), le_trans (min_le_right _ _) (by norm_num)⟩
  · exact ⟨le_trans (by norm_num) (le_max_right _ _), max_le (by linarith) (by norm_num)⟩
  · exact ⟨hlo, hhi⟩

/-- Helper: the score bound is preserved by any finite event sequence. -/
theorem runBehaviorEvents_score_bounds (events : List BehaviorEvent)
    (ub : UserBehaviorData)
    (hlo : 0.1 ≤ ub.userEngagementScore) (hhi : ub.userEngagementScore ≤ 1) :
    0.1 ≤ (runBehaviorEvents events ub).userEngagementScore ∧
    (runBehaviorEvents events ub).userEngagementScore ≤ 1 := by
  induction events generalizing ub with
  | nil => exact ⟨hlo, hhi⟩
  | cons e es ih =>
    have hstep := updateUserBehaviorData_score_bounds e.action e.taskCreatedTime e.now ub hlo hhi
    simp only [runBehaviorEvents, List.foldl_cons]
    exact ih _ hstep.1 hstep.2

/-- Claim C10: the engagement score starts at 0.5 and, for every finite
sequence of updateUserBehaviorData calls with any action strings and any
data, stays in the closed interval from 0.1 to 1.0 (raises cap at 1.0,
drops floor at 0.1), while any action other than the three recognised
camelCase names leaves the record unchanged. -/
theorem c10_engagement_score_bounded (events : List BehaviorEvent) (now0 : Nat)
    (a : String) (d : Option Nat) (n : Nat) (ub : UserBehaviorData)
    (ha1 : a ≠ "taskCompleted") (ha2 : a ≠ "taskCreated") (ha3 : a ≠ "userInactive") :
    (initialUserBehaviorData now0).userEngagementScore = 0.5 ∧
    (0.1 ≤ (runBehaviorEvents events (initialUserBehaviorData now0)).userEngagementScore ∧
      (runBehaviorEvents events (initialUserBehaviorData now0)).userEngagementScore ≤ 1) ∧
    updateUserBehaviorData a d n ub = ub := by
  refine ⟨rfl, ?_, ?_⟩
  · exact runBehaviorEvents_score_bounds events (initialUserBehaviorData now0)
      (by norm_num [initialUserBehaviorData]) (by norm_num [initialUserBehaviorData])
  · unfold updateUserBehaviorData
    rw [if_neg ha1, if_neg ha2, if_neg ha3]

/-- Witness for claim C10: a sample event sequence mixing recognised,
dispatched-but-unrecognised and junk actions, and the unrecognised
dispatched action task_completed leaving a record unchanged. -/
theorem c10_engagement_score_bounded_witness :
    ("task_completed" ≠ "taskCompleted" ∧ "task_completed" ≠ "taskCreated" ∧
      "task_completed" ≠ "userInactive") ∧
    ((initialUserBehaviorData 0).userEngagementScore = 0.5 ∧
      (0.1 ≤ (runBehaviorEvents
          [BehaviorEvent.mk "taskCompleted" none 3, BehaviorEvent.mk "task_completed" none 4,
            BehaviorEvent.mk "userInactive" none 5]
          (initialUserBehaviorData 0)).userEngagementScore ∧
        (runBehaviorEvents
          [BehaviorEvent.mk "taskCompleted" none 3, BehaviorEvent.mk "task_completed" none 4,
            BehaviorEvent.mk "userInactive" none 5]
          (initialUserBehaviorData 0)).userEngagementScore ≤ 1) ∧
      updateUserBehaviorData "task_completed" none 4 (initialUserBehaviorData 0) =
        initialUserBehaviorData 0) :=
  ⟨⟨by decide, by decide, by decide⟩,
    c10_engagement_score_bounded
      [BehaviorEvent.mk "taskCompleted" none 3, BehaviorEvent.mk "task_completed" none 4,
        BehaviorEvent.mk "userInactive" none 5]
      0 "task_completed" none 4 (initialUserBehaviorData 0)
      (by decide) (by decide) (by decide)⟩

end MyPlan
